import Mathlib

/-!
Verification of the stable-baselines3-contrib excerpt.

The excerpt contains the `ppo_recurrent` package glue (policy-class aliases
and re-exports) together with integration tests that exercise the host
framework's save/load/parameter-management machinery and the
`TimeFeatureWrapper`.  The operative implementations (the host algorithm
base class and the wrapper) are not part of the excerpt, so they are
modelled here from the specification's description of their contract,
while the alias table of `ppo_recurrent/policies.py` is embedded directly.

Tensors are abstracted to their exact contents (an integer stands for the
value of a tensor); a state dict is an ordered association list from
parameter name to tensor, and a model's parameter set is an ordered
association list from object name to state dict, mirroring the ordered
dictionaries used by the framework.
-/

/-- A state dict: ordered mapping from tensor key to tensor value. -/
def StateDict := List (String × Int)

/-- The parameters of a model: ordered mapping from object name to state dict. -/
def Params := List (String × StateDict)

/-- Errors in the host framework's taxonomy, as described by the spec:
value errors and runtime errors. -/
inductive SBError where
  | valueError
  | runtimeError
deriving DecidableEq, Repr

/-- Look up a state dict by object name. -/
def Params.lookupObj (p : Params) (name : String) : Option StateDict :=
  List.lookup name p

/-- Look up a single tensor by object name and tensor key. -/
def Params.getParam (p : Params) (name key : String) : Option Int :=
  (p.lookupObj name).bind (fun sd => List.lookup key sd)

/-- `true` when the supplied state dict lacks a key that the current
state dict has (PyTorch "missing keys"). -/
def missingKeys (current supplied : StateDict) : Bool :=
  current.any (fun q => (List.lookup q.1 supplied).isNone)

/-- `true` when the supplied state dict has a key that the current
state dict lacks (PyTorch "unexpected keys"). -/
def unexpectedKeys (current supplied : StateDict) : Bool :=
  supplied.any (fun q => (List.lookup q.1 current).isNone)

/-- The state dict produced by a successful `load_state_dict`: every key
present in the supplied dict takes the supplied value, every other key
keeps its current value. -/
def applySupplied (supplied current : StateDict) : StateDict :=
  current.map (fun q => (q.1, ((List.lookup q.1 supplied).getD q.2)))

/-- Modelled from the spec: PyTorch's `load_state_dict`, as relied on by the
host framework's `set_parameters` (the implementation is outside the
excerpt).  Under strict matching a mismatch between the key sets raises a
runtime error; otherwise every key present in the supplied dict takes the
supplied value and every other key keeps its current value. -/
def loadStateDict (current supplied : StateDict) (strict : Bool) :
    Except SBError StateDict :=
  if strict && (missingKeys current supplied || unexpectedKeys current supplied) then
    Except.error SBError.runtimeError
  else
    Except.ok (applySupplied supplied current)

/-- Load every object of `d` into the matching object of `m`, leaving
objects that `d` does not mention untouched; the first failing state-dict
load aborts with its error. -/
def loadAllObjects (m : Params) (d : Params) (strict : Bool) :
    Except SBError Params :=
  match m with
  | [] => Except.ok []
  | (name, sd) :: rest =>
    match List.lookup name d with
    | none =>
      (loadAllObjects rest d strict).map (fun r => (name, sd) :: r)
    | some supplied =>
      match loadStateDict sd supplied strict with
      | Except.error e => Except.error e
      | Except.ok sd2 =>
        (loadAllObjects rest d strict).map (fun r => (name, sd2) :: r)

/-- Modelled from the spec: the host framework's `set_parameters`
(the implementation is outside the excerpt).  A supplied object name that
does not belong to the model raises a value error; each supplied state
dict is loaded into its object, strictly exactly when `exact_match` is
set, and a strict load with mismatched tensor keys raises a runtime
error; finally, under `exact_match`, a model object missing from the
supplied set raises a value error. -/
def setParameters (m : Params) (d : Params) (exactMatch : Bool) :
    Except SBError Params :=
  if d.any (fun q => (m.lookupObj q.1).isNone) then
    Except.error SBError.valueError
  else
    match loadAllObjects m d exactMatch with
    | Except.error e => Except.error e
    | Except.ok newParams =>
      if exactMatch && m.any (fun q => (List.lookup q.1 d).isNone) then
        Except.error SBError.valueError
      else
        Except.ok newParams

/-- The state dict that object `name` of the model ends up with after a
successful non-strict load of `d`: untouched when `d` does not mention
`name`, otherwise updated by the supplied dict. -/
def updateObj (d : Params) (name : String) (sd : StateDict) : StateDict :=
  match List.lookup name d with
  | none => sd
  | some s => applySupplied s sd

/-- The parameter set that a successful non-strict `set_parameters m d`
produces: each object of `m` keeps its name; within an object mentioned by
`d`, a tensor key supplied by `d` takes the supplied value and every other
key keeps its current value; objects not mentioned by `d` are untouched. -/
def updatedParams (m d : Params) : Params :=
  m.map (fun p => (p.1, updateObj d p.1 p.2))

/-- The device targets accepted by `load`. -/
inductive Device where
  | auto
  | cpu
  | cuda
deriving DecidableEq, Repr

/-- Modelled from the spec: a model as seen by the persistence layer — its
parameter state dicts plus its pickled data attributes (an attribute is
abstracted to an integer value) and its device. -/
structure Model where
  params : Params
  device : Device
  attrs : String → Int

/-- Modelled from the spec: the persisted artifact — the serialized
parameter state dicts plus the pickled data attributes that survived the
exclude/include filtering. -/
structure SavedModel where
  params : Params
  attrs : String → Option Int

/-- Modelled from the spec: `save(path, exclude, include)`.  All parameter
state dicts are serialized; a data attribute is dropped exactly when it is
listed in `exclude` and not rescued by `incl` (include takes precedence
over exclude). -/
def saveModel (m : Model) (exclude incl : List String) : SavedModel :=
  { params := m.params
    attrs := fun n =>
      if n ∈ exclude ∧ n ∉ incl then none else some (m.attrs n) }

/-- Modelled from the spec: `load(path, env, device)`.  The serialized
parameter state dicts are restored verbatim onto the requested device; a
data attribute absent from the artifact falls back to the fresh model's
default value. -/
def loadModel (s : SavedModel) (device : Device) (defaults : String → Int) :
    Model :=
  { params := s.params
    device := device
    attrs := fun n => (s.attrs n).getD (defaults n) }

/-- `get_parameters` of a model. -/
def getParameters (m : Model) : Params := m.params

/-- Modelled from the spec: `predict(observations, deterministic=True)` is a
deterministic function of the policy parameters and the observations;
`f` is that function and `predictWith f` applies it to a model. -/
def predictWith (f : Params → List Int → List Int) (m : Model)
    (obs : List Int) : List Int :=
  f m.params obs

/-!
The `TimeFeatureWrapper` of `sb3_contrib.common.wrappers`.  Its
implementation is outside the excerpt; it is modelled from the spec: the
wrapper appends a feature `1 - t/T` to the observation (the last component
for box observations, appended to the "observation" entry for dict
observations), where `t` is the number of steps taken since the last reset
and `T` the episode limit; the feature resets to `1.0` at episode start
and is held constant at `1.0` in test mode.  Observation components are
exact rationals. -/

/-- Modelled from the spec: the state of a `TimeFeatureWrapper` — the
episode limit `T` (`max_steps` or the wrapped env's time limit), the
test-mode flag and the number of steps taken in the current episode. -/
structure TimeFeatureWrapper where
  maxSteps : Nat
  testMode : Bool
  currentStep : Nat
deriving DecidableEq, Repr

/-- The time feature of the wrapper's current state: `1 - t/T`, held at
`1.0` in test mode. -/
def TimeFeatureWrapper.timeFeature (w : TimeFeatureWrapper) : ℚ :=
  if w.testMode then 1 else 1 - (w.currentStep : ℚ) / (w.maxSteps : ℚ)

/-- `reset()` starts a new episode: the step counter returns to zero. -/
def TimeFeatureWrapper.reset (w : TimeFeatureWrapper) : TimeFeatureWrapper :=
  { w with currentStep := 0 }

/-- One `step(action)` of the wrapper: the step counter advances. -/
def TimeFeatureWrapper.step (w : TimeFeatureWrapper) : TimeFeatureWrapper :=
  { w with currentStep := w.currentStep + 1 }

/-- `n` consecutive `step` calls. -/
def TimeFeatureWrapper.stepN (w : TimeFeatureWrapper) : Nat → TimeFeatureWrapper
  | 0 => w
  | n + 1 => (w.stepN n).step

/-- A box observation wrapped by the time-feature wrapper: the feature is
appended as the last component. -/
def wrapBoxObs (w : TimeFeatureWrapper) (obs : List ℚ) : List ℚ :=
  obs ++ [w.timeFeature]

/-- A dict observation of a goal environment. -/
structure DictObs where
  observation : List ℚ
  achievedGoal : List ℚ
  desiredGoal : List ℚ

/-- A dict observation wrapped by the time-feature wrapper: the feature is
appended to the "observation" entry, the goal entries are untouched. -/
def wrapDictObs (w : TimeFeatureWrapper) (obs : DictObs) : DictObs :=
  { obs with observation := obs.observation ++ [w.timeFeature] }

/-!
The policy alias table of `sb3_contrib/ppo_recurrent/policies.py` and the
exports of `sb3_contrib/ppo_recurrent/__init__.py`, embedded directly from
the source. -/

/-- The recurrent policy classes of `sb3_contrib.common.recurrent.policies`
that `ppo_recurrent/policies.py` imports, as an enumeration of distinct
class identities. -/
inductive RecurrentPolicyClass where
  | RecurrentActorCriticPolicy
  | RecurrentActorCriticCnnPolicy
  | RecurrentMultiInputActorCriticPolicy
  | GruActorCriticPolicy
deriving DecidableEq, Repr

/-- `MlpLstmPolicy = RecurrentActorCriticPolicy` of `policies.py`. -/
def MlpLstmPolicy : RecurrentPolicyClass :=
  RecurrentPolicyClass.RecurrentActorCriticPolicy

/-- `CnnLstmPolicy = RecurrentActorCriticCnnPolicy` of `policies.py`. -/
def CnnLstmPolicy : RecurrentPolicyClass :=
  RecurrentPolicyClass.RecurrentActorCriticCnnPolicy

/-- `MultiInputLstmPolicy = RecurrentMultiInputActorCriticPolicy` of
`policies.py`. -/
def MultiInputLstmPolicy : RecurrentPolicyClass :=
  RecurrentPolicyClass.RecurrentMultiInputActorCriticPolicy

/-- `MlpGruPolicy = GruActorCriticPolicy` of `policies.py`. -/
def MlpGruPolicy : RecurrentPolicyClass :=
  RecurrentPolicyClass.GruActorCriticPolicy

/-- The `__all__` list of `sb3_contrib/ppo_recurrent/__init__.py`. -/
def ppoRecurrentAll : List String :=
  ["CnnLstmPolicy", "MlpLstmPolicy", "MultiInputLstmPolicy", "RecurrentPPO",
   "GruPPO"]

/-! ### Helper lemmas -/

theorem lookup_map_keyfun {α β : Type} (g : String → α → β) (k : String) :
    ∀ (l : List (String × α)),
      List.lookup k (l.map (fun p => (p.1, g p.1 p.2))) =
        (List.lookup k l).map (g k)
  | [] => rfl
  | (a, b) :: rest => by
    by_cases h : k = a
    · subst h
      simp [List.lookup]
    · simp [List.lookup, beq_eq_false_iff_ne.mpr h,
        lookup_map_keyfun g k rest]

theorem loadAllObjects_nonstrict (d : Params) :
    ∀ (m : Params), loadAllObjects m d false = Except.ok (updatedParams m d)
  | [] => rfl
  | (name, sd) :: rest => by
    unfold loadAllObjects updatedParams
    cases hl : List.lookup name d with
    | none =>
      simp [hl, loadAllObjects_nonstrict d rest, Except.map, updatedParams,
        updateObj]
    | some supplied =>
      simp [hl, loadStateDict, loadAllObjects_nonstrict d rest, Except.map,
        updatedParams, updateObj]

theorem lookupObj_updatedParams (m d : Params) (name : String) :
    (updatedParams m d).lookupObj name =
      (m.lookupObj name).map (updateObj d name) :=
  lookup_map_keyfun (updateObj d) name m

theorem lookup_applySupplied (supplied sd : StateDict) (key : String) :
    List.lookup key (applySupplied supplied sd) =
      (List.lookup key sd).map (fun old => (List.lookup key supplied).getD old) :=
  lookup_map_keyfun (fun k old => (List.lookup k supplied).getD old) key sd

theorem stepN_currentStep (w : TimeFeatureWrapper) :
    ∀ t : Nat, (w.stepN t).currentStep = w.currentStep + t
  | 0 => rfl
  | t + 1 => by
    simp [TimeFeatureWrapper.stepN, TimeFeatureWrapper.step,
      stepN_currentStep w t]
    omega

theorem stepN_testMode (w : TimeFeatureWrapper) :
    ∀ t : Nat, (w.stepN t).testMode = w.testMode
  | 0 => rfl
  | t + 1 => by
    simp [TimeFeatureWrapper.stepN, TimeFeatureWrapper.step,
      stepN_testMode w t]

theorem stepN_maxSteps (w : TimeFeatureWrapper) :
    ∀ t : Nat, (w.stepN t).maxSteps = w.maxSteps
  | 0 => rfl
  | t + 1 => by
    simp [TimeFeatureWrapper.stepN, TimeFeatureWrapper.step,
      stepN_maxSteps w t]

theorem timeFeature_after_reset_steps (w : TimeFeatureWrapper) (t : Nat)
    (hmode : w.testMode = false) :
    ((w.reset).stepN t).timeFeature = 1 - (t : ℚ) / (w.maxSteps : ℚ) := by
  have h1 := stepN_currentStep w.reset t
  have h2 := stepN_testMode w.reset t
  have h3 := stepN_maxSteps w.reset t
  simp only [TimeFeatureWrapper.timeFeature, h1, h2, h3]
  simp [TimeFeatureWrapper.reset, hmode]

/-! ### Claim theorems -/

/-- C1: for every trained model and every device choice among auto, cpu and
cuda, saving and then loading yields a model whose `get_parameters` agrees,
for every parameter object and every tensor key, with the parameters the
model had before saving. -/
theorem save_load_preserves_params (m : Model) (exclude incl : List String)
    (device : Device) (defaults : String → Int) :
    getParameters (loadModel (saveModel m exclude incl) device defaults) =
        getParameters m ∧
      ∀ name key : String,
        (getParameters
            (loadModel (saveModel m exclude incl) device defaults)).getParam
            name key =
          (getParameters m).getParam name key :=
  ⟨rfl, fun _ _ => rfl⟩

/-- C3: deterministic predicted actions on a fixed batch of observations are
identical before and after a save/load round trip, for every load device
target: any deterministic predictor that is a function of the policy
parameters returns the same actions on the loaded model as on the
original. -/
theorem predict_same_after_save_load (f : Params → List Int → List Int)
    (m : Model) (obs : List Int) (exclude incl : List String)
    (device : Device) (defaults : String → Int) :
    predictWith f (loadModel (saveModel m exclude incl) device defaults) obs =
      predictWith f m obs :=
  rfl

/-- C9: the policy names exported by the `ppo_recurrent` package are pure
aliases: `MlpLstmPolicy` is identically `RecurrentActorCriticPolicy`,
`CnnLstmPolicy` is identically `RecurrentActorCriticCnnPolicy`,
`MultiInputLstmPolicy` is identically
`RecurrentMultiInputActorCriticPolicy`, and all three names are exported
by the package's `__all__` list. -/
theorem ppo_recurrent_policy_aliases :
    MlpLstmPolicy = RecurrentPolicyClass.RecurrentActorCriticPolicy ∧
      CnnLstmPolicy = RecurrentPolicyClass.RecurrentActorCriticCnnPolicy ∧
      MultiInputLstmPolicy =
        RecurrentPolicyClass.RecurrentMultiInputActorCriticPolicy ∧
      "MlpLstmPolicy" ∈ ppoRecurrentAll ∧
      "CnnLstmPolicy" ∈ ppoRecurrentAll ∧
      "MultiInputLstmPolicy" ∈ ppoRecurrentAll :=
  ⟨rfl, rfl, rfl, by decide, by decide, by decide⟩

theorem getLast?_append_singleton (l : List ℚ) (x : ℚ) :
    (l ++ [x]).getLast? = some x := by
  rw [List.getLast?_append_cons]
  rfl

/-- C7: for an environment wrapped by `TimeFeatureWrapper` with episode
limit `T` (outside test mode), the wrapper appends one extra component to
the observation — the last component for box observations, appended to the
"observation" entry for dict observations — whose value is `1.0`
immediately after `reset()` and `1 - t/T` after the `t`-th step, hence
monotonically decreasing within an episode. -/
theorem time_feature_formula (w : TimeFeatureWrapper) (obs : List ℚ)
    (dobs : DictObs) (t : Nat) (hmode : w.testMode = false)
    (hT : 0 < w.maxSteps) :
    (wrapBoxObs w.reset obs).getLast? = some 1 ∧
      (wrapBoxObs ((w.reset).stepN t) obs).length = obs.length + 1 ∧
      (wrapBoxObs ((w.reset).stepN t) obs).getLast? =
        some (1 - (t : ℚ) / (w.maxSteps : ℚ)) ∧
      (wrapDictObs ((w.reset).stepN t) dobs).observation.getLast? =
        some (1 - (t : ℚ) / (w.maxSteps : ℚ)) ∧
      ∀ t1 t2 : Nat, t1 ≤ t2 →
        ((w.reset).stepN t2).timeFeature ≤ ((w.reset).stepN t1).timeFeature := by
  have hfeat : ∀ s : Nat,
      ((w.reset).stepN s).timeFeature = 1 - (s : ℚ) / (w.maxSteps : ℚ) :=
    fun s => timeFeature_after_reset_steps w s hmode
  have hc : (0 : ℚ) < (w.maxSteps : ℚ) := by exact_mod_cast hT
  refine ⟨?_, ?_, ?_, ?_, ?_⟩
  · have h0 := hfeat 0
    simp only [TimeFeatureWrapper.stepN] at h0
    rw [wrapBoxObs, getLast?_append_singleton, h0]
    simp
  · simp [wrapBoxObs]
  · rw [wrapBoxObs, getLast?_append_singleton, hfeat t]
  · rw [wrapDictObs]
    simp only
    rw [getLast?_append_singleton, hfeat t]
  · intro t1 t2 h12
    rw [hfeat t1, hfeat t2]
    have hle : (t1 : ℚ) ≤ (t2 : ℚ) := by exact_mod_cast h12
    have hdiv : (t1 : ℚ) / (w.maxSteps : ℚ) ≤ (t2 : ℚ) / (w.maxSteps : ℚ) := by
      gcongr
    linarith

/-- Witness for C7 at the concrete wrapper with `T = 200`, a one-component
box observation, a concrete dict observation and `t = 3`. -/
theorem time_feature_formula_witness :
    (wrapBoxObs (TimeFeatureWrapper.mk 200 false 7).reset [0]).getLast? =
        some 1 ∧
      ((((TimeFeatureWrapper.mk 200 false 7).reset).stepN 5).timeFeature ≤
        (((TimeFeatureWrapper.mk 200 false 7).reset).stepN 1).timeFeature) := by
  have h := time_feature_formula (TimeFeatureWrapper.mk 200 false 7) [0]
    (DictObs.mk [0] [0] [0]) 3 rfl (by decide)
  exact ⟨h.1, h.2.2.2.2 1 5 (by decide)⟩

/-- C8: with `test_mode=True` the appended time feature holds constant
across steps — it equals `1.0` after `reset()` and still `1.0` after every
subsequent step, regardless of the step count. -/
theorem test_mode_constant_feature (w : TimeFeatureWrapper) (obs : List ℚ)
    (hmode : w.testMode = true) (t : Nat) :
    ((w.reset).stepN t).timeFeature = 1 ∧
      (wrapBoxObs ((w.reset).stepN t) obs).getLast? = some 1 := by
  have h2 : ((w.reset).stepN t).testMode = true := by
    rw [stepN_testMode]
    exact hmode
  have hfeat : ((w.reset).stepN t).timeFeature = 1 := by
    simp [TimeFeatureWrapper.timeFeature, h2]
  refine ⟨hfeat, ?_⟩
  rw [wrapBoxObs, getLast?_append_singleton, hfeat]

/-- Witness for C8 at the concrete wrapper with `T = 200` in test mode,
after 5 steps. -/
theorem test_mode_constant_feature_witness :
    ((((TimeFeatureWrapper.mk 200 true 0).reset).stepN 5).timeFeature = 1 ∧
      (wrapBoxObs (((TimeFeatureWrapper.mk 200 true 0).reset).stepN 5)
        [0]).getLast? = some 1) :=
  test_mode_constant_feature (TimeFeatureWrapper.mk 200 true 0) [0] rfl 5

/-- C4: `set_parameters` with a parameter dictionary containing an object
name that does not belong to the model raises a value error, both with
`exact_match=True` and with `exact_match=False`. -/
theorem invalid_object_name_valueError (m d : Params)
    (h : d.any (fun q => (m.lookupObj q.1).isNone) = true) (b : Bool) :
    setParameters m d b = Except.error SBError.valueError := by
  simp [setParameters, h]

/-- Witness for C4: a one-object model and a dictionary with an invalid
object name, under both values of `exact_match`. -/
theorem invalid_object_name_valueError_witness :
    setParameters [("policy", [("w", (1 : Int))])]
        [("I_should_not_be_a_valid_object", [])] true =
        Except.error SBError.valueError ∧
      setParameters [("policy", [("w", (1 : Int))])]
        [("I_should_not_be_a_valid_object", [])] false =
        Except.error SBError.valueError :=
  ⟨invalid_object_name_valueError _ _ (by decide) true,
   invalid_object_name_valueError _ _ (by decide) false⟩

/-- C10: when the same attribute name is passed both in `exclude` and in
`include`, include takes precedence — the attribute's current value is
persisted and restored on load — whereas passing it in `exclude` alone
makes the loaded model fall back to the default value for that
attribute. -/
theorem include_overrides_exclude (m : Model) (exclude incl : List String)
    (device : Device) (defaults : String → Int) (name : String)
    (hex : name ∈ exclude) :
    (name ∈ incl →
        (loadModel (saveModel m exclude incl) device defaults).attrs name =
          m.attrs name) ∧
      (name ∉ incl →
        (loadModel (saveModel m exclude incl) device defaults).attrs name =
          defaults name) := by
  constructor
  · intro hin
    simp [loadModel, saveModel, hin]
  · intro hnin
    simp [loadModel, saveModel, hex, hnin]

/-- Witness for C10: the `verbose` attribute is excluded; restored when
also included, reset to the default when not. -/
theorem include_overrides_exclude_witness :
    ((loadModel (saveModel (Model.mk [] Device.cpu fun _ => 2) ["verbose"]
        ["verbose"]) Device.auto fun _ => 1).attrs "verbose" = 2) ∧
      ((loadModel (saveModel (Model.mk [] Device.cpu fun _ => 2) ["verbose"]
        []) Device.auto fun _ => 1).attrs "verbose" = 1) :=
  ⟨(include_overrides_exclude (Model.mk [] Device.cpu fun _ => 2) ["verbose"]
      ["verbose"] Device.auto (fun _ => 1) "verbose" (by decide)).1 (by decide),
   (include_overrides_exclude (Model.mk [] Device.cpu fun _ => 2) ["verbose"]
      [] Device.auto (fun _ => 1) "verbose" (by decide)).2 (by decide)⟩

theorem any_invalid_eq_false (m d : Params)
    (h : d.all (fun q => (m.lookupObj q.1).isSome) = true) :
    d.any (fun q => (m.lookupObj q.1).isNone) = false := by
  rw [List.any_eq_false]
  intro q hq
  have hs := (List.all_eq_true.mp h) q hq
  cases hx : Params.lookupObj m q.1 with
  | none => rw [hx] at hs; simp at hs
  | some sd => simp [hx]

theorem loadAllObjects_strict_ok (d : Params) :
    ∀ m : Params,
      m.all (fun p =>
        match List.lookup p.1 d with
        | none => true
        | some s => !(missingKeys p.2 s || unexpectedKeys p.2 s)) = true →
      ∃ r, loadAllObjects m d true = Except.ok r
  | [], _ => ⟨[], rfl⟩
  | (name, sd) :: rest, hclean => by
    rw [List.all_cons] at hclean
    have hhead := (Bool.and_eq_true _ _).mp hclean |>.1
    have htail := (Bool.and_eq_true _ _).mp hclean |>.2
    obtain ⟨r, hr⟩ := loadAllObjects_strict_ok d rest htail
    cases hl : List.lookup name d with
    | none =>
      refine ⟨(name, sd) :: r, ?_⟩
      unfold loadAllObjects
      rw [hl, hr]
      rfl
    | some s =>
      rw [hl] at hhead
      have hfl : (missingKeys sd s || unexpectedKeys sd s) = false := by
        simpa using hhead
      refine ⟨(name, applySupplied s sd) :: r, ?_⟩
      unfold loadAllObjects
      rw [hl]
      simp [loadStateDict, hfl, hr, Except.map]

theorem loadAllObjects_strict_error (d : Params) :
    ∀ m : Params,
      m.any (fun p =>
        match List.lookup p.1 d with
        | none => false
        | some s => missingKeys p.2 s || unexpectedKeys p.2 s) = true →
      loadAllObjects m d true = Except.error SBError.runtimeError
  | [], hfail => by simp at hfail
  | (name, sd) :: rest, hfail => by
    rw [List.any_cons] at hfail
    cases hl : List.lookup name d with
    | none =>
      rw [hl] at hfail
      have htail : (rest.any fun p =>
          match List.lookup p.1 d with
          | none => false
          | some s => missingKeys p.2 s || unexpectedKeys p.2 s) = true :=
        hfail
      have hrec := loadAllObjects_strict_error d rest htail
      unfold loadAllObjects
      rw [hl, hrec]
      rfl
    | some s =>
      rw [hl] at hfail
      have hfail' : ((missingKeys sd s || unexpectedKeys sd s) ||
          rest.any fun p =>
            match List.lookup p.1 d with
            | none => false
            | some s => missingKeys p.2 s || unexpectedKeys p.2 s) = true :=
        hfail
      cases hfl : missingKeys sd s || unexpectedKeys sd s with
      | true =>
        unfold loadAllObjects
        rw [hl]
        simp [loadStateDict, hfl]
      | false =>
        rw [hfl, Bool.false_or] at hfail'
        have hrec := loadAllObjects_strict_error d rest hfail'
        unfold loadAllObjects
        rw [hl, hrec]
        simp [loadStateDict, hfl, Except.map]

/-- C5: `set_parameters(d, exact_match=True)` raises a value error when the
otherwise well-formed supplied dictionary `d` (valid object names, cleanly
loading state dicts) omits at least one of the model's top-level parameter
objects. -/
theorem missing_object_valueError (m d : Params)
    (hvalid : d.all (fun q => (m.lookupObj q.1).isSome) = true)
    (hclean : m.all (fun p =>
      match List.lookup p.1 d with
      | none => true
      | some s => !(missingKeys p.2 s || unexpectedKeys p.2 s)) = true)
    (hmissing : m.any (fun p => (List.lookup p.1 d).isNone) = true) :
    setParameters m d true = Except.error SBError.valueError := by
  have hguard := any_invalid_eq_false m d hvalid
  obtain ⟨r, hr⟩ := loadAllObjects_strict_ok d m hclean
  simp [setParameters, hguard, hr, hmissing]

/-- Witness for C5: a two-object model and a dictionary supplying only the
first object, completely. -/
theorem missing_object_valueError_witness :
    setParameters
        [("policy", [("w", (1 : Int))]), ("policy.optimizer", [("s", 2)])]
        [("policy", [("w", (9 : Int))])] true =
      Except.error SBError.valueError :=
  missing_object_valueError _ _ (by decide) (by decide) (by decide)

/-- C6: `set_parameters(d, exact_match=True)` raises a runtime error when
`d` has valid object names and contains every top-level parameter object,
but at least one object's supplied state dict is missing a tensor key. -/
theorem missing_tensor_key_runtimeError (m d : Params)
    (hvalid : d.all (fun q => (m.lookupObj q.1).isSome) = true)
    (_hall : m.all (fun p => (List.lookup p.1 d).isSome) = true)
    (hmiss : m.any (fun p =>
      match List.lookup p.1 d with
      | none => false
      | some s => missingKeys p.2 s) = true) :
    setParameters m d true = Except.error SBError.runtimeError := by
  have hguard := any_invalid_eq_false m d hvalid
  have hfail : (m.any fun p =>
      match List.lookup p.1 d with
      | none => false
      | some s => missingKeys p.2 s || unexpectedKeys p.2 s) = true := by
    rw [List.any_eq_true] at hmiss ⊢
    obtain ⟨p, hp, hcond⟩ := hmiss
    refine ⟨p, hp, ?_⟩
    cases hl : List.lookup p.1 d with
    | none => rw [hl] at hcond; exact absurd hcond (by simp)
    | some s =>
      rw [hl] at hcond
      have hm : missingKeys p.2 s = true := hcond
      show (missingKeys p.2 s || unexpectedKeys p.2 s) = true
      rw [hm, Bool.true_or]
  have herr := loadAllObjects_strict_error d m hfail
  simp [setParameters, hguard, herr]

/-- Witness for C6: a one-object model whose supplied state dict omits the
tensor key `b`. -/
theorem missing_tensor_key_runtimeError_witness :
    setParameters [("policy", [("w", (1 : Int)), ("b", 2)])]
        [("policy", [("w", (5 : Int))])] true =
      Except.error SBError.runtimeError :=
  missing_tensor_key_runtimeError _ _ (by decide) (by decide) (by decide)

/-- C2: `set_parameters(d, exact_match=False)` with a partial parameter
dictionary `d` (whose object names all belong to the model) succeeds and
changes exactly the entries supplied in `d`: every model parameter whose
object and key are supplied in `d` takes the supplied value, and every
model parameter not supplied in `d` keeps its previous value. -/
theorem set_parameters_partial_frame (m d : Params)
    (h : d.all (fun q => (m.lookupObj q.1).isSome) = true) :
    setParameters m d false = Except.ok (updatedParams m d) ∧
      (∀ name key : String, ∀ v : Int,
        Params.getParam m name key ≠ none →
        Params.getParam d name key = some v →
        Params.getParam (updatedParams m d) name key = some v) ∧
      (∀ name key : String,
        Params.getParam d name key = none →
        Params.getParam (updatedParams m d) name key =
          Params.getParam m name key) := by
  refine ⟨?_, ?_, ?_⟩
  · have hguard := any_invalid_eq_false m d h
    simp [setParameters, hguard, loadAllObjects_nonstrict]
  · intro name key v hm hd
    cases hdn : Params.lookupObj d name with
    | none =>
      rw [Params.getParam, hdn] at hd
      simp at hd
    | some s =>
      rw [Params.getParam, hdn] at hd
      simp only [Option.some_bind] at hd
      cases hmn : Params.lookupObj m name with
      | none =>
        rw [Params.getParam, hmn] at hm
        simp at hm
      | some sd =>
        rw [Params.getParam, hmn] at hm
        simp only [Option.some_bind] at hm
        cases hkn : List.lookup key sd with
        | none => exact absurd hkn hm
        | some oldv =>
          rw [Params.getParam, lookupObj_updatedParams, hmn]
          have hdl : List.lookup name d = some s := hdn
          simp only [Option.map_some', Option.some_bind, updateObj, hdl,
            lookup_applySupplied, hkn, hd]
          rfl
  · intro name key hdnone
    cases hmn : Params.lookupObj m name with
    | none =>
      rw [Params.getParam, lookupObj_updatedParams, hmn,
        Params.getParam, hmn]
      rfl
    | some sd =>
      rw [Params.getParam, lookupObj_updatedParams, hmn,
        Params.getParam, hmn]
      simp only [Option.map_some', Option.some_bind]
      cases hdn : Params.lookupObj d name with
      | none =>
        have hdl : List.lookup name d = none := hdn
        simp [updateObj, hdl]
      | some s =>
        rw [Params.getParam, hdn] at hdnone
        simp only [Option.some_bind] at hdnone
        have hdl : List.lookup name d = some s := hdn
        simp only [updateObj, hdl, lookup_applySupplied, hdnone]
        cases List.lookup key sd <;> rfl

/-- Witness for C2: a model with a `policy` object holding keys `w`, `b`
and an optimizer object; the partial dictionary supplies only `policy.w`,
which changes, while `policy.b` is untouched. -/
theorem set_parameters_partial_frame_witness :
    setParameters
        [("policy", [("w", (1 : Int)), ("b", 2)]),
         ("policy.optimizer", [("s", 3)])]
        [("policy", [("w", (9 : Int))])] false =
      Except.ok (updatedParams
        [("policy", [("w", (1 : Int)), ("b", 2)]),
         ("policy.optimizer", [("s", 3)])]
        [("policy", [("w", (9 : Int))])]) ∧
      Params.getParam (updatedParams
        [("policy", [("w", (1 : Int)), ("b", 2)]),
         ("policy.optimizer", [("s", 3)])]
        [("policy", [("w", (9 : Int))])]) "policy" "w" = some 9 ∧
      Params.getParam (updatedParams
        [("policy", [("w", (1 : Int)), ("b", 2)]),
         ("policy.optimizer", [("s", 3)])]
        [("policy", [("w", (9 : Int))])]) "policy" "b" = some 2 := by
  have h := set_parameters_partial_frame
    [("policy", [("w", (1 : Int)), ("b", 2)]), ("policy.optimizer", [("s", 3)])]
    [("policy", [("w", (9 : Int))])] (by decide)
  refine ⟨h.1, h.2.1 "policy" "w" 9 (by decide) (by decide), ?_⟩
  rw [h.2.2 "policy" "b" (by decide)]
  decide
